import Mathlib

/-!
# Lifecycle of `BtHalMessageLooper` (hci_hal_msg_handler.cc)

A shallow embedding of the Bluetooth HAL message looper: the manager object
(`running_`, `looper_`, `event_fd_`, `thread_`), the process-wide semaphore `sem`,
and the operating-system resources the code touches (file descriptors, threads).

Every library call of the source is one step on the `World`; its effect is written to
`World.trace`, so that statements about *which calls were made, and in which order* are
statements about lists.  Results the code cannot control (what `sem_init`, `eventfd`
and `Looper::prepare` return, whether the `std::thread` constructor can start a thread,
what `pollOnce` reports) are inputs of the model.

The worker thread is sequentialised at the hand-shake: everything the worker does up to
`sem_post` happens before `sem_wait` returns in `StartThread`.
-/

namespace BtHal

/-! ## Data model -/

/-- Identity of an operating-system thread (`std::thread::id` of a running thread). -/
abbrev ThreadId := Nat

/-- `const eventfd_t kStopEvent = 1;` -/
def kStopEvent : Nat := 1

/-- `android::Looper::POLL_WAKE` (value from the platform header utils/Looper.h). -/
def POLL_WAKE : Int := -1

/-- `android::Looper::POLL_CALLBACK` (value from the platform header utils/Looper.h). -/
def POLL_CALLBACK : Int := -2

/-- `android::Looper::POLL_TIMEOUT` (value from the platform header utils/Looper.h). -/
def POLL_TIMEOUT : Int := -3

/-- `android::Looper::POLL_ERROR` (value from the platform header utils/Looper.h). -/
def POLL_ERROR : Int := -4

/-- The part of an `android::Looper` this file uses: the descriptors registered with
`addFd`, each with the ident it was registered under. -/
structure Looper where
  fds : List (Int × Nat)
  deriving DecidableEq, Repr

/-- `Looper::addFd(fd, ident, ...)`: the registration for `fd` is added (a previous one
for the same descriptor is replaced). -/
def Looper.addFd (l : Looper) (fd : Int) (ident : Nat) : Looper :=
  { fds := (fd, ident) :: l.fds.filter (fun p => p.1 ≠ fd) }

/-- `Looper::removeFd(fd)`: the registration for `fd`, if any, is dropped. -/
def Looper.removeFd (l : Looper) (fd : Int) : Looper :=
  { fds := l.fds.filter (fun p => p.1 ≠ fd) }

/-- The member fields of `class BtHalMessageLooper`.
`looper_` is `none` for a null `sp<Looper>`; `thread_` is `some tid` exactly when the
`std::thread` object is joinable (it then owns the thread `tid`). -/
structure BtHalMessageLooper where
  running_ : Bool
  looper_ : Option Looper
  event_fd_ : Int
  thread_ : Option ThreadId
  deriving DecidableEq, Repr

/-- One call into the operating system or a library, as recorded in the trace. -/
inductive Action where
  | sem_init (res : Int)
  | eventfd (res : Int)
  | thread_create (tid : Option ThreadId)
  | prctl_set_name (name : List Char)
  | looper_prepare (nonNull : Bool)
  | looper_addFd (fd : Int) (ident : Nat)
  | sem_post
  | sem_wait
  | eventfd_write (fd : Int) (value : Nat)
  | thread_join (tid : ThreadId)
  | looper_removeFd (fd : Int)
  | close (fd : Int)
  | looper_clear
  | sem_destroy
  | looper_sendMessage (handler : Nat) (message : Int)
  deriving DecidableEq, Repr

/-- The manager together with what lives outside it: the global `sem_t sem`
(`none`: not initialised, `some n`: initialised with count `n`), the descriptors open in
the process, the threads created and not yet joined, and the calls made so far. -/
structure World where
  mgr : BtHalMessageLooper
  sem : Option Nat
  open_fds : List Int
  live_threads : List ThreadId
  trace : List Action
  deriving DecidableEq, Repr

/-- Ways in which a call does not return to its caller. -/
inductive Fault where
  /-- The call `LOG_ALWAYS_FATAL` / `LOG_ALWAYS_FATAL_IF` aborted the process. -/
  | logFatal
  /-- The `std::thread` library ended the process: assignment to a joinable thread
  object calls `std::terminate`, and `join` on a thread object that is not joinable
  raises `std::system_error`. -/
  | terminate
  /-- The `std::thread` constructor could not start a thread and raised
  `std::system_error`; nothing in this file handles it, and the platform builds without
  exceptions, so the process is aborted. -/
  | systemError
  /-- A member function was called through a null `looper_`. -/
  | nullLooper
  /-- The call `sem_post` or `sem_wait` was made on a semaphore that is not initialised. -/
  | badSem
  /-- The call `sem_wait` found the count at zero with nobody left to post. -/
  | blocked
  deriving DecidableEq, Repr

/-- Result of running a member function: it returned `val` in world `w`, or it did not
return and the process was in world `w` when it stopped. -/
inductive Outcome (α : Type) where
  | returned (val : α) (w : World)
  | faulted (f : Fault) (w : World)
  deriving DecidableEq, Repr

/-- What the environment answers during one `StartThread`. -/
structure StartEnv where
  /-- Return value of `sem_init(&sem,0,0)`. -/
  sem_init_res : Int
  /-- Return value of `eventfd(0, 0)`: the new descriptor, or `-1`. -/
  eventfd_res : Int
  /-- The thread started by the `std::thread` constructor; `none` when no thread can be
  started (the constructor then raises `std::system_error`). -/
  spawned : Option ThreadId
  /-- The looper `Looper::prepare(0)` hands to the worker; `none` for a null pointer. -/
  prepared : Option Looper
  deriving DecidableEq, Repr

/-- Append one call to the trace. -/
def World.log (w : World) (a : Action) : World :=
  { w with trace := w.trace ++ [a] }

/-! ## `ThreadRoutine`: the thread name -/

/-- `const int kThreadNameLenMax(16);` -/
def kThreadNameLenMax : Nat := 16

/-- The terminating character of a C string. -/
def NUL : Char := Char.ofNat 0

/-- `char name_buffer[kThreadNameLenMax+1] = {'0'};` : the first element is the digit
character `'0'`, the remaining sixteen are value-initialised to NUL. -/
def name_buffer_init : List Char :=
  '0' :: List.replicate kThreadNameLenMax NUL

/-- `size_t copy_len = thread_name.length() < kThreadNameLenMax ?
thread_name.length() : kThreadNameLenMax;` -/
def copy_len (thread_name : List Char) : Nat :=
  if thread_name.length < kThreadNameLenMax then thread_name.length else kThreadNameLenMax

/-- `std::string::copy(dest, count)`: the first `min count size` characters of the
string overwrite the start of `dest`; no terminator is written. -/
def string_copy (s : List Char) (dest : List Char) (count : Nat) : List Char :=
  s.take count ++ dest.drop (min count s.length)

/-- Contents of `name_buffer` after `thread_name.copy(name_buffer, copy_len)`. -/
def ThreadRoutine_name_buffer (thread_name : List Char) : List Char :=
  string_copy thread_name name_buffer_init (copy_len thread_name)

/-- The C string held in a character buffer: the characters before the first NUL. -/
def c_str (buf : List Char) : List Char :=
  buf.takeWhile (fun c => c ≠ NUL)

/-- The name `ThreadRoutine` passes to `prctl(PR_SET_NAME, name_buffer)`. -/
def ThreadRoutine_name (thread_name : List Char) : List Char :=
  c_str (ThreadRoutine_name_buffer thread_name)

/-! ## `RunLooper`: the poll loop -/

/-- The loop condition `android::Looper::POLL_WAKE == result || running_`, for the
result of the last poll and the value of `running_` read after it. -/
def RunLooper_continues (result : Int) (running : Bool) : Bool :=
  result == POLL_WAKE || running

/-- The loop `do { result = looper_->pollOnce(-1); } while (POLL_WAKE == result ||
running_);` run against an environment: `polls i` is what the `i`-th call of `pollOnce`
returns together with the value of `running_` right after that call.  `RunLooper_loop
polls fuel i` starts with poll number `i` and issues at most `fuel` polls; it yields
`some k` when the loop exits after `k` polls in total (so the last one had number
`k - 1`), and `none` when the loop is still going after `fuel` polls. -/
def RunLooper_loop (polls : Nat → Int × Bool) : Nat → Nat → Option Nat
  | 0, _ => none
  | fuel + 1, i =>
    if RunLooper_continues (polls i).1 (polls i).2 then RunLooper_loop polls fuel (i + 1)
    else some (i + 1)

/-- The environment that answers the polls with the entries of `l` in order, and with
`(POLL_CALLBACK, false)` (the stop callback ran, the flag is cleared) ever after. -/
def pollsOf (l : List (Int × Bool)) : Nat → Int × Bool :=
  fun i => l.getD i (POLL_CALLBACK, false)

/-! ## The constructor -/

/-- Modelled from the spec: the initial value of `running_` is set in
hci_hal_msg_handler.h, which is not among the sources; the spec has a Manager `Stopped`
until `Start` is called.  The constructor `BtHalMessageLooper::BtHalMessageLooper()`
itself sets `looper_(nullptr), event_fd_(-1)`; the default-constructed `thread_` is not
joinable. -/
def BtHalMessageLooper.new : BtHalMessageLooper :=
  { running_ := false, looper_ := none, event_fd_ := -1, thread_ := none }

/-- A process holding a freshly constructed manager: `sem` is not initialised, nothing
was called yet; `fds` and `threads` are the descriptors and threads the rest of the
process already has. -/
def World.fresh (fds : List Int) (threads : List ThreadId) : World :=
  { mgr := BtHalMessageLooper.new, sem := none, open_fds := fds,
    live_threads := threads, trace := [] }

/-! ## Library calls as steps on the world -/

/-- `int res = sem_init(&sem,0,0);` : on success the semaphore is initialised with count
zero; on failure it is left as it was (the source only logs). -/
def sem_init (w : World) (res : Int) : World :=
  let w1 := w.log (Action.sem_init res)
  if res = 0 then { w1 with sem := some 0 } else w1

/-- `event_fd_ = eventfd(0, 0);` : the result is stored in `event_fd_`; unless it is
`-1` a descriptor has been opened. -/
def eventfd (w : World) (res : Int) : World :=
  let w1 := w.log (Action.eventfd res)
  let w2 := { w1 with mgr := { w1.mgr with event_fd_ := res } }
  if res = -1 then w2 else { w2 with open_fds := res :: w2.open_fds }

/-- The constructor call `std::thread([this](std::string thread_name) { ... },
thread_name)`.  Either it starts a thread, which is alive from now on and owned by the
new (joinable) thread object, or it raises `std::system_error`; it never hands back a
thread object that is not joinable. -/
def thread_construct (w : World) (spawned : Option ThreadId) : Outcome Unit :=
  let w1 := w.log (Action.thread_create spawned)
  match spawned with
  | some tid => .returned () { w1 with live_threads := tid :: w1.live_threads }
  | none => .faulted .systemError w1

/-- `sem_post(&sem);` -/
def sem_post (w : World) : Outcome Unit :=
  match w.sem with
  | some n => .returned () { w.log Action.sem_post with sem := some (n + 1) }
  | none => .faulted .badSem w

/-- `sem_wait(&sem);` -/
def sem_wait (w : World) : Outcome Unit :=
  match w.sem with
  | some (n + 1) => .returned () { w.log Action.sem_wait with sem := some n }
  | some 0 => .faulted .blocked w
  | none => .faulted .badSem w

/-! ## The worker thread up to the hand-shake -/

/-- `RunLooper` from its first line to `sem_post(&sem)`:
`looper_ = android::Looper::prepare(0)`, the fatal check on a null looper,
`looper_->addFd(event_fd_, kStopEvent, ...)`, `sem_post(&sem)`. -/
def RunLooper_init (w : World) (prepared : Option Looper) : Outcome Unit :=
  let w1 := w.log (Action.looper_prepare prepared.isSome)
  let w2 := { w1 with mgr := { w1.mgr with looper_ := prepared } }
  match prepared with
  | none => .faulted .logFatal w2
  | some l =>
    let w3 := w2.log (Action.looper_addFd w2.mgr.event_fd_ kStopEvent)
    let w4 := { w3 with mgr := { w3.mgr with
                  looper_ := some (l.addFd w3.mgr.event_fd_ kStopEvent) } }
    sem_post w4

/-- `ThreadRoutine` up to the point where `RunLooper` has posted the semaphore: the
name buffer is built and handed to `prctl(PR_SET_NAME, ...)` (whose result is only
logged), then `RunLooper` starts. -/
def ThreadRoutine_init (w : World) (thread_name : List Char) (prepared : Option Looper) :
    Outcome Unit :=
  let w1 := w.log (Action.prctl_set_name (ThreadRoutine_name thread_name))
  RunLooper_init w1 prepared

/-! ## `StartThread`, `StopThread`, `EnqueueMessage` -/

/-- `int BtHalMessageLooper::StartThread(const std::string& thread_name)`. -/
def StartThread (w : World) (thread_name : List Char) (env : StartEnv) : Outcome Int :=
  -- if (std::atomic_exchange(&running_, true)) return 0;
  if w.mgr.running_ then .returned 0 w
  else
    let w1 := { w with mgr := { w.mgr with running_ := true } }
    -- int res = sem_init(&sem,0,0); if (res != 0) ALOGE(...)
    let w2 := sem_init w1 env.sem_init_res
    -- event_fd_ = eventfd(0, 0);
    let w3 := eventfd w2 env.eventfd_res
    -- if (-1 == event_fd_) LOG_ALWAYS_FATAL(...)
    if w3.mgr.event_fd_ = -1 then .faulted .logFatal w3
    else
      -- thread_ = std::thread(...): the new thread object is built first, then moved
      -- into thread_, which must not be joinable at that point
      match thread_construct w3 env.spawned with
      | .faulted f w4 => .faulted f w4
      | .returned _ w4 =>
        if w4.mgr.thread_.isSome then .faulted .terminate w4
        else
          let w5 := { w4 with mgr := { w4.mgr with thread_ := env.spawned } }
          -- if (!thread_.joinable()) return -1;
          match w5.mgr.thread_ with
          | none => .returned (-1) w5
          | some _ =>
            -- the worker runs ThreadRoutine up to sem_post
            match ThreadRoutine_init w5 thread_name env.prepared with
            | .faulted f w6 => .faulted f w6
            | .returned _ w6 =>
              -- sem_wait(&sem);
              match sem_wait w6 with
              | .faulted f w7 => .faulted f w7
              | .returned _ w7 => .returned 0 w7

/-- `int BtHalMessageLooper::StartMessageLooper(const std::string& thread_name)`. -/
def StartMessageLooper (w : World) (thread_name : List Char) (env : StartEnv) :
    Outcome Int :=
  StartThread w thread_name env

/-- `int BtHalMessageLooper::StopThread()`, called on thread `caller`.
`join` is taken to complete: the worker leaves its loop once the flag is cleared and a
poll reports something other than a wake (see `RunLooper_loop`). -/
def StopThread (w : World) (caller : ThreadId) : Outcome Int :=
  -- if (!std::atomic_exchange(&running_, false)) return 0;
  if !w.mgr.running_ then .returned 0 w
  else
    let w1 := { w with mgr := { w.mgr with running_ := false } }
    -- eventfd_write(event_fd_, kStopEvent);
    let w2 := w1.log (Action.eventfd_write w1.mgr.event_fd_ kStopEvent)
    -- if (std::this_thread::get_id() != thread_.get_id()) thread_.join();
    let joined : Outcome Unit :=
      if some caller ≠ w2.mgr.thread_ then
        match w2.mgr.thread_ with
        | none => .faulted .terminate w2
        | some tid =>
          .returned () { w2.log (Action.thread_join tid) with
            mgr := { w2.mgr with thread_ := none },
            live_threads := w2.live_threads.erase tid }
      else .returned () w2
    match joined with
    | .faulted f w3 => .faulted f w3
    | .returned _ w3 =>
      -- looper_->removeFd(event_fd_);
      match w3.mgr.looper_ with
      | none => .faulted .nullLooper w3
      | some l =>
        let w4 := { w3.log (Action.looper_removeFd w3.mgr.event_fd_) with
                    mgr := { w3.mgr with looper_ := some (l.removeFd w3.mgr.event_fd_) } }
        -- close(event_fd_);
        let w5 := { w4.log (Action.close w4.mgr.event_fd_) with
                    open_fds := w4.open_fds.erase w4.mgr.event_fd_ }
        -- looper_.clear(); looper_ = nullptr;
        let w6 := { w5.log Action.looper_clear with
                    mgr := { w5.mgr with looper_ := none } }
        -- sem_destroy(&sem);
        let w7 := { w6.log Action.sem_destroy with sem := none }
        .returned 0 w7

/-- `void BtHalMessageLooper::StopMessageLooper()`: the result of `StopThread` is
dropped. -/
def StopMessageLooper (w : World) (caller : ThreadId) : Outcome Unit :=
  match StopThread w caller with
  | .returned _ w1 => .returned () w1
  | .faulted f w1 => .faulted f w1

/-- `void BtHalMessageLooper::EnqueueMessage(const sp<MessageHandler>& handler, const
Message& message) const`; a null handler is `none`. -/
def EnqueueMessage (w : World) (handler : Option Nat) (message : Int) : Outcome Unit :=
  match handler with
  -- LOG_ALWAYS_FATAL_IF(!handler.get(), ...)
  | none => .faulted .logFatal w
  | some h =>
    -- looper_->sendMessage(handler, message);
    match w.mgr.looper_ with
    | none => .faulted .nullLooper w
    | some _ => .returned () (w.log (Action.looper_sendMessage h message))

/-! ## Observations used in the statements -/

/-- Number of calls of the `std::thread` constructor recorded in a trace. -/
def threadCreations (t : List Action) : Nat :=
  (t.filter (fun a => match a with
    | .thread_create _ => true
    | _ => false)).length

/-- Number of semaphores that are initialised and not destroyed (there is one `sem`). -/
def World.semaphores (w : World) : Nat :=
  if w.sem.isSome then 1 else 0

/-- The wake-signal descriptor is registered with the manager's looper. -/
def World.wakeRegistered (w : World) : Bool :=
  match w.mgr.looper_ with
  | some l => l.fds.any (fun p => p.1 == w.mgr.event_fd_)
  | none => false

/-- One Start/Stop cycle as the environment sees it: the name given to `StartThread`,
the answers of the system during it, and the thread that then calls `StopThread`. -/
structure Cycle where
  thread_name : List Char
  env : StartEnv
  stopper : ThreadId
  deriving DecidableEq, Repr

/-- Run the cycles in order.  A cycle counts only if its `StartThread` returns `0` and
its `StopThread` is called from a thread other than the worker and returns; otherwise
the run yields `none`. -/
def runCycles : World → List Cycle → Option World
  | w, [] => some w
  | w, c :: cs =>
    match StartThread w c.thread_name c.env with
    | .returned 0 w1 =>
      if some c.stopper = w1.mgr.thread_ then none
      else
        match StopThread w1 c.stopper with
        | .returned _ w2 => runCycles w2 cs
        | .faulted _ _ => none
    | _ => none

/-- The system calls of a cycle all succeed, and the stopping thread is not the worker
the cycle starts. -/
def Cycle.ok (c : Cycle) : Prop :=
  c.env.sem_init_res = 0 ∧ c.env.eventfd_res ≠ -1 ∧ c.env.prepared ≠ none ∧
    c.env.spawned ≠ none ∧ c.env.spawned ≠ some c.stopper

instance (c : Cycle) : Decidable c.ok := by
  unfold Cycle.ok
  infer_instance

/-! ## Concrete inputs -/

/-- An environment in which every call of `StartThread` succeeds: descriptor 5, worker
thread 7, an empty looper. -/
def envOk : StartEnv :=
  { sem_init_res := 0, eventfd_res := 5, spawned := some 7, prepared := some { fds := [] } }

/-- The same environment, except that no thread can be started. -/
def envNoThread : StartEnv :=
  { sem_init_res := 0, eventfd_res := 5, spawned := none, prepared := some { fds := [] } }

/-- The thread name used in the examples. -/
def exampleName : List Char := "bt_hal_msg".toList

/-- The world in which `StartThread exampleName envNoThread`, called on `World.fresh [] []`,
is left when the thread constructor raises: the flag is set, a semaphore and a
descriptor are left behind. -/
def atFailedStart : World :=
  { mgr := { running_ := true, looper_ := none, event_fd_ := 5, thread_ := none },
    sem := some 0,
    open_fds := [5],
    live_threads := [],
    trace := [Action.sem_init 0, Action.eventfd 5, Action.thread_create none] }

/-- The calls recorded by a `StartThread exampleName envOk` that runs to its end. -/
def startCalls : List Action :=
  [Action.sem_init 0, Action.eventfd 5, Action.thread_create (some 7),
   Action.prctl_set_name exampleName, Action.looper_prepare true,
   Action.looper_addFd 5 1, Action.sem_post, Action.sem_wait]

/-- The world reached from `World.fresh [] []` by `StartThread exampleName envOk`: the
manager runs, worker thread 7 is alive, descriptor 5 is registered with the looper. -/
def afterStart : World :=
  { mgr := { running_ := true, looper_ := some { fds := [(5, 1)] }, event_fd_ := 5,
             thread_ := some 7 },
    sem := some 0,
    open_fds := [5],
    live_threads := [7],
    trace := startCalls }

/-- The world reached from `afterStart` when the worker thread 7 itself calls
`StopThread`: no `thread_join` was made and `thread_` still owns thread 7. -/
def afterSelfStop : World :=
  { mgr := { running_ := false, looper_ := none, event_fd_ := 5, thread_ := some 7 },
    sem := none,
    open_fds := [],
    live_threads := [7],
    trace := startCalls ++ [Action.eventfd_write 5 1, Action.looper_removeFd 5,
      Action.close 5, Action.looper_clear, Action.sem_destroy] }

/-- The environment of a second start: descriptor 6, worker thread 8. -/
def envOk2 : StartEnv :=
  { sem_init_res := 0, eventfd_res := 6, spawned := some 8, prepared := some { fds := [] } }

/-- The worlds a process gets to from a freshly constructed manager by calls of
`StartThread`, `StopThread` and `EnqueueMessage` that return (a call that does not return
ends the process). -/
inductive Reachable : World → Prop where
  | fresh (fds : List Int) (threads : List ThreadId) : Reachable (World.fresh fds threads)
  | start {w w1 : World} (thread_name : List Char) (env : StartEnv) (r : Int) :
      Reachable w → StartThread w thread_name env = Outcome.returned r w1 → Reachable w1
  | stop {w w1 : World} (caller : ThreadId) (r : Int) :
      Reachable w → StopThread w caller = Outcome.returned r w1 → Reachable w1
  | enqueue {w w1 : World} (handler : Option Nat) (message : Int) :
      Reachable w → EnqueueMessage w handler message = Outcome.returned () w1 → Reachable w1

/-- The manager holds what a completed start set up: a joinable thread object, a looper,
and the wake descriptor registered with that looper. -/
def Started (w : World) : Prop :=
  w.mgr.thread_ ≠ none ∧ w.mgr.looper_ ≠ none ∧ w.wakeRegistered = true

instance (w : World) : Decidable (Started w) := by
  unfold Started
  infer_instance

/-- The state between cycles: the manager is stopped and holds nothing (no looper, no
joinable thread object), the semaphore is not initialised, and the process has exactly
the descriptors `fds` and the threads `threads`. -/
def Quiescent (fds : List Int) (threads : List ThreadId) (w : World) : Prop :=
  w.mgr.running_ = false ∧ w.mgr.looper_ = none ∧ w.mgr.thread_ = none ∧ w.sem = none ∧
    w.open_fds = fds ∧ w.live_threads = threads

instance (fds : List Int) (threads : List ThreadId) (w : World) :
    Decidable (Quiescent fds threads w) := by
  unfold Quiescent
  infer_instance

/-- Two cycles that succeed, each stopped from thread 1. -/
def twoCycles : List Cycle :=
  [{ thread_name := exampleName, env := envOk, stopper := 1 },
   { thread_name := exampleName, env := envOk2, stopper := 1 }]


/-! ## Lemmas about the operations -/

/-- Every StartThread that begins with the flag cleared and returns has set the flag and
has called the thread constructor exactly once. -/
theorem StartThread_returned_of_stopped (w : World) (name : List Char) (env : StartEnv)
    (r : Int) (w1 : World) (h : w.mgr.running_ = false)
    (hs : StartThread w name env = Outcome.returned r w1) :
    w1.mgr.running_ = true ∧ threadCreations w1.trace = threadCreations w.trace + 1 := by
  obtain ⟨si, ef, sp, pr⟩ := env
  obtain ⟨⟨run, lp, efd, th⟩, sm, fds, thr, tr⟩ := w
  simp only at h
  subst h
  rcases sp with _ | tid <;> rcases pr with _ | l <;> rcases sm with _ | n <;>
    by_cases hsi : si = 0 <;> by_cases hef : ef = -1 <;> rcases th with _ | t0 <;>
    simp [StartThread, ThreadRoutine_init, RunLooper_init, sem_post, sem_wait,
      thread_construct, eventfd, sem_init, World.log, hsi, hef] at hs <;>
    (obtain ⟨-, rfl⟩ := hs) <;>
    simp [threadCreations, List.filter_append]

/-- A StartThread that begins with the flag cleared and returns 0 has created the
worker, opened the wake descriptor and received a looper; it adds exactly one thread and
one descriptor, and the semaphore is initialised. -/
theorem StartThread_zero_of_stopped (w : World) (name : List Char) (env : StartEnv)
    (w1 : World) (h : w.mgr.running_ = false)
    (hs : StartThread w name env = Outcome.returned 0 w1) :
    w1.mgr.running_ = true ∧ w1.sem.isSome = true ∧
      w1.open_fds = w1.mgr.event_fd_ :: w.open_fds ∧
      w1.wakeRegistered = true ∧
      ∃ tid l, w1.mgr.thread_ = some tid ∧ w1.mgr.looper_ = some l ∧
        w1.live_threads = tid :: w.live_threads := by
  obtain ⟨si, ef, sp, pr⟩ := env
  obtain ⟨⟨run, lp, efd, th⟩, sm, fds, thr, tr⟩ := w
  simp only at h
  subst h
  rcases sp with _ | tid <;> rcases pr with _ | l <;> rcases sm with _ | n <;>
    by_cases hsi : si = 0 <;> by_cases hef : ef = -1 <;> rcases th with _ | t0 <;>
    simp [StartThread, ThreadRoutine_init, RunLooper_init, sem_post, sem_wait,
      thread_construct, eventfd, sem_init, World.log, hsi, hef] at hs <;>
    subst hs <;>
    simp [World.wakeRegistered, Looper.addFd]

/-- When every system call succeeds, a StartThread on a stopped manager whose thread
object is not joinable returns 0. -/
theorem StartThread_ok (w : World) (name : List Char) (env : StartEnv) (tid : ThreadId)
    (h : w.mgr.running_ = false) (hth : w.mgr.thread_ = none)
    (hsi : env.sem_init_res = 0) (hef : env.eventfd_res ≠ -1)
    (hsp : env.spawned = some tid) (hpr : env.prepared ≠ none) :
    ∃ w1, StartThread w name env = Outcome.returned 0 w1 ∧ w1.mgr.thread_ = some tid := by
  obtain ⟨si, ef, sp, pr⟩ := env
  obtain ⟨⟨run, lp, efd, th⟩, sm, fds, thr, tr⟩ := w
  simp only at h hth hsi hef hsp hpr
  subst h hth hsi hsp
  rcases pr with _ | l
  · exact absurd rfl hpr
  · simp [StartThread, ThreadRoutine_init, RunLooper_init, sem_post, sem_wait,
      thread_construct, eventfd, sem_init, World.log, hef]

/-- On a stopped manager, a StartThread that gets a descriptor but cannot start a thread
does not return: the constructor raises, with the running flag already set and nothing
undone. -/
theorem StartThread_spawn_failed (w : World) (name : List Char) (env : StartEnv)
    (h : w.mgr.running_ = false) (hef : env.eventfd_res ≠ -1) (hsp : env.spawned = none) :
    ∃ w1, StartThread w name env = Outcome.faulted Fault.systemError w1 ∧
      w1.mgr.running_ = true ∧ w1.mgr.looper_ = w.mgr.looper_ ∧
      w1.open_fds = env.eventfd_res :: w.open_fds := by
  obtain ⟨si, ef, sp, pr⟩ := env
  obtain ⟨⟨run, lp, efd, th⟩, sm, fds, thr, tr⟩ := w
  simp only at h hef hsp
  subst h hsp
  by_cases hsi : si = 0 <;>
    simp [StartThread, thread_construct, eventfd, sem_init, World.log, hsi, hef]

/-- Every StartThread that returns, returns 0: the result -1 of line 77 is never
produced, because a thread object that has just been constructed is joinable. -/
theorem StartThread_returns_zero (w : World) (name : List Char) (env : StartEnv)
    (r : Int) (w1 : World) (hs : StartThread w name env = Outcome.returned r w1) :
    r = 0 := by
  obtain ⟨si, ef, sp, pr⟩ := env
  obtain ⟨⟨run, lp, efd, th⟩, sm, fds, thr, tr⟩ := w
  rcases run with _ | _ <;> rcases sp with _ | tid <;> rcases pr with _ | l <;>
    rcases sm with _ | n <;> by_cases hsi : si = 0 <;> by_cases hef : ef = -1 <;>
    rcases th with _ | t0 <;>
    simp [StartThread, ThreadRoutine_init, RunLooper_init, sem_post, sem_wait,
      thread_construct, eventfd, sem_init, World.log, hsi, hef] at hs <;>
    exact hs.1.symm

/-- A StartThread that begins with the flag cleared and returns leaves a started
manager. -/
theorem StartThread_returned_started (w : World) (name : List Char) (env : StartEnv)
    (r : Int) (w1 : World) (h : w.mgr.running_ = false)
    (hs : StartThread w name env = Outcome.returned r w1) : Started w1 := by
  obtain ⟨si, ef, sp, pr⟩ := env
  obtain ⟨⟨run, lp, efd, th⟩, sm, fds, thr, tr⟩ := w
  simp only at h
  subst h
  rcases sp with _ | tid <;> rcases pr with _ | l <;> rcases sm with _ | n <;>
    by_cases hsi : si = 0 <;> by_cases hef : ef = -1 <;> rcases th with _ | t0 <;>
    simp [StartThread, ThreadRoutine_init, RunLooper_init, sem_post, sem_wait,
      thread_construct, eventfd, sem_init, World.log, hsi, hef] at hs <;>
    (obtain ⟨-, rfl⟩ := hs) <;>
    simp [Started, World.wakeRegistered, Looper.addFd]

/-- The calls a StartThread makes when it begins with the flag cleared and returns 0, in
order: the worker prepares the looper and registers the wake descriptor before it posts
the semaphore, and the wait on the semaphore comes last. -/
theorem StartThread_zero_trace (w : World) (name : List Char) (env : StartEnv)
    (w1 : World) (h : w.mgr.running_ = false)
    (hs : StartThread w name env = Outcome.returned 0 w1) :
    w1.trace = w.trace ++ [Action.sem_init env.sem_init_res, Action.eventfd env.eventfd_res,
      Action.thread_create env.spawned, Action.prctl_set_name (ThreadRoutine_name name),
      Action.looper_prepare true, Action.looper_addFd env.eventfd_res kStopEvent,
      Action.sem_post, Action.sem_wait] := by
  obtain ⟨si, ef, sp, pr⟩ := env
  obtain ⟨⟨run, lp, efd, th⟩, sm, fds, thr, tr⟩ := w
  simp only at h
  subst h
  rcases sp with _ | tid <;> rcases pr with _ | l <;> rcases sm with _ | n <;>
    by_cases hsi : si = 0 <;> by_cases hef : ef = -1 <;> rcases th with _ | t0 <;>
    simp [StartThread, ThreadRoutine_init, RunLooper_init, sem_post, sem_wait,
      thread_construct, eventfd, sem_init, World.log, hsi, hef] at hs <;>
    subst hs <;>
    simp [hsi]

/-- On a stopped manager whose thread object is still joinable, StartThread never
returns, whatever the system answers: it is stopped by the fatal log when no descriptor
can be had, by the constructor when no thread can be started, and by the assignment to
the joinable thread object otherwise. -/
theorem StartThread_never_returns_of_joinable (w : World) (name : List Char)
    (env : StartEnv) (tid : ThreadId) (h : w.mgr.running_ = false)
    (hth : w.mgr.thread_ = some tid) :
    ∃ f w1, StartThread w name env = Outcome.faulted f w1 ∧
      (f = Fault.logFatal ∨ f = Fault.systemError ∨ f = Fault.terminate) := by
  obtain ⟨si, ef, sp, pr⟩ := env
  obtain ⟨⟨run, lp, efd, th⟩, sm, fds, thr, tr⟩ := w
  simp only at h hth
  subst h hth
  by_cases hsi : si = 0 <;> by_cases hef : ef = -1 <;> rcases sp with _ | t1 <;>
    simp [StartThread, thread_construct, eventfd, sem_init, World.log, hsi, hef]

/-- A StopThread that returns leaves the running flag cleared. -/
theorem StopThread_returned_flag (w : World) (caller : ThreadId) (r : Int) (w1 : World)
    (hs : StopThread w caller = Outcome.returned r w1) : w1.mgr.running_ = false := by
  obtain ⟨⟨run, lp, efd, th⟩, sm, fds, thr, tr⟩ := w
  rcases run with _ | _ <;> rcases lp with _ | l <;> rcases th with _ | t0
  all_goals first
    | (simp [StopThread, World.log] at hs
       obtain ⟨-, rfl⟩ := hs
       rfl)
    | (by_cases hc : caller = t0 <;>
        simp [StopThread, World.log, hc] at hs <;>
        (obtain ⟨-, rfl⟩ := hs) <;> rfl)
    | (simp [StopThread, World.log] at hs)

/-- An EnqueueMessage that returns leaves the manager's fields as they were. -/
theorem EnqueueMessage_returned_mgr (w : World) (handler : Option Nat) (message : Int)
    (w1 : World) (hs : EnqueueMessage w handler message = Outcome.returned () w1) :
    w1.mgr = w.mgr := by
  rcases handler with _ | h
  · simp [EnqueueMessage] at hs
  · rcases hl : w.mgr.looper_ with _ | l
    · simp [EnqueueMessage, hl] at hs
    · simp [EnqueueMessage, hl, World.log] at hs
      subst hs
      rfl

/-- In every reachable world a set running flag comes with a started manager. -/
theorem Reachable_started (w : World) (hreach : Reachable w) :
    w.mgr.running_ = true → Started w := by
  induction hreach with
  | fresh fds threads =>
    intro h
    simp [World.fresh, BtHalMessageLooper.new] at h
  | @start w0 w1 name env r _ hs ih =>
    intro _
    by_cases h0 : w0.mgr.running_ = true
    · have hsame : w1 = w0 := by
        simp [StartThread, h0] at hs
        exact hs.2.symm
      rw [hsame]
      exact ih h0
    · exact StartThread_returned_started w0 name env r w1 (by simpa using h0) hs
  | @stop w0 w1 caller r _ hs _ =>
    intro h
    rw [StopThread_returned_flag w0 caller r w1 hs] at h
    cases h
  | @enqueue w0 w1 handler message _ hs ih =>
    intro h
    have hm := EnqueueMessage_returned_mgr w0 handler message w1 hs
    have h0 : w0.mgr.running_ = true := by rw [← hm]; exact h
    obtain ⟨h1, h2, h3⟩ := ih h0
    refine ⟨by rw [hm]; exact h1, by rw [hm]; exact h2, ?_⟩
    unfold World.wakeRegistered at h3 ⊢
    rw [hm]
    exact h3

/-- The world in which StopThread returns when it is called on a running manager with a
joinable thread object and a looper. -/
theorem StopThread_of_running (w : World) (caller tid : ThreadId) (l : Looper)
    (hrun : w.mgr.running_ = true) (hthr : w.mgr.thread_ = some tid)
    (hloop : w.mgr.looper_ = some l) :
    StopThread w caller = Outcome.returned 0
      { mgr := { running_ := false, looper_ := none, event_fd_ := w.mgr.event_fd_,
                 thread_ := if caller = tid then some tid else none },
        sem := none,
        open_fds := w.open_fds.erase w.mgr.event_fd_,
        live_threads := if caller = tid then w.live_threads else w.live_threads.erase tid,
        trace := w.trace ++ [Action.eventfd_write w.mgr.event_fd_ kStopEvent] ++
          (if caller = tid then [] else [Action.thread_join tid]) ++
          [Action.looper_removeFd w.mgr.event_fd_, Action.close w.mgr.event_fd_,
           Action.looper_clear, Action.sem_destroy] } := by
  obtain ⟨⟨run, lp, efd, th⟩, sm, fds, thr, tr⟩ := w
  simp only at hrun hthr hloop
  subst hrun hthr hloop
  by_cases hc : caller = tid
  · subst hc
    simp [StopThread, World.log]
  · simp [StopThread, World.log, hc]

/-- For a name that is not empty and has no NUL among its first sixteen characters, the
name handed to the system is the name cut to sixteen characters. -/
theorem ThreadRoutine_name_of_nonempty (thread_name : List Char) (hne : thread_name ≠ [])
    (hnul : ∀ c ∈ thread_name.take kThreadNameLenMax, c ≠ NUL) :
    ThreadRoutine_name thread_name = thread_name.take kThreadNameLenMax := by
  have hlen : 0 < thread_name.length := List.length_pos.mpr hne
  unfold ThreadRoutine_name ThreadRoutine_name_buffer string_copy c_str
  have htake : thread_name.take (copy_len thread_name) = thread_name.take kThreadNameLenMax := by
    unfold copy_len
    split_ifs with h
    · rw [List.take_of_length_le (le_refl _), List.take_of_length_le (le_of_lt h)]
    · rfl
  have hdrop : ∃ k, name_buffer_init.drop (min (copy_len thread_name) thread_name.length)
      = NUL :: List.replicate k NUL := by
    obtain ⟨m, hm, hm16⟩ : ∃ m, min (copy_len thread_name) thread_name.length = m + 1 ∧
        m < kThreadNameLenMax := by
      unfold copy_len kThreadNameLenMax
      split_ifs with h
      · exact ⟨thread_name.length - 1, by omega, by omega⟩
      · exact ⟨15, by omega, by omega⟩
    refine ⟨kThreadNameLenMax - m - 1, ?_⟩
    rw [hm]
    unfold name_buffer_init
    rw [List.drop_succ_cons, List.drop_replicate]
    obtain ⟨j, hj⟩ : ∃ j, kThreadNameLenMax - m = j + 1 := ⟨kThreadNameLenMax - m - 1, by omega⟩
    rw [hj, List.replicate_succ]
    simp
  obtain ⟨k, hk⟩ := hdrop
  rw [htake, hk, List.takeWhile_append_of_pos]
  · simp
  · intro c hc
    simpa using hnul c hc

/-- The loop started at poll `i` exits after poll `n` exactly when `n` is reached
within the fuel, every poll from `i` up to `n` made the condition true and poll `n` made
it false. -/
theorem RunLooper_loop_eq_some (polls : Nat → Int × Bool) (fuel i n : Nat) :
    RunLooper_loop polls fuel i = some (n + 1) ↔
      i ≤ n ∧ n < i + fuel ∧
        (∀ j, i ≤ j → j < n → RunLooper_continues (polls j).1 (polls j).2 = true) ∧
        RunLooper_continues (polls n).1 (polls n).2 = false := by
  induction fuel generalizing i with
  | zero =>
    simp only [RunLooper_loop, add_zero]
    constructor
    · intro h
      cases h
    · rintro ⟨h1, h2, -⟩
      omega
  | succ fuel ih =>
    unfold RunLooper_loop
    by_cases hc : RunLooper_continues (polls i).1 (polls i).2 = true
    · rw [if_pos hc, ih]
      constructor
      · rintro ⟨h1, h2, h3, h4⟩
        refine ⟨by omega, by omega, ?_, h4⟩
        intro j hj hjn
        rcases Nat.eq_or_lt_of_le hj with rfl | hlt
        · exact hc
        · exact h3 j hlt hjn
      · rintro ⟨h1, h2, h3, h4⟩
        have hne : i ≠ n := by
          rintro rfl
          rw [hc] at h4
          cases h4
        exact ⟨by omega, by omega, fun j hj hjn => h3 j (by omega) hjn, h4⟩
    · rw [if_neg hc]
      have hc2 : RunLooper_continues (polls i).1 (polls i).2 = false := by
        simpa using hc
      constructor
      · intro h
        have hin : i = n := by
          simpa using h
        subst hin
        exact ⟨le_refl _, by omega, fun j hj hjn => absurd hj (by omega), hc2⟩
      · rintro ⟨h1, h2, h3, h4⟩
        rcases Nat.eq_or_lt_of_le h1 with rfl | hlt
        · rfl
        · exact absurd (h3 i (le_refl _) hlt) hc

/-- The first cycle of a run, unfolded. -/
theorem runCycles_cons (w : World) (c : Cycle) (cs : List Cycle) :
    runCycles w (c :: cs) =
      match StartThread w c.thread_name c.env with
      | .returned 0 w1 =>
        if some c.stopper = w1.mgr.thread_ then none
        else
          match StopThread w1 c.stopper with
          | .returned _ w2 => runCycles w2 cs
          | .faulted _ _ => none
      | _ => none := by
  rfl

/-- One counted cycle takes a quiescent world to a quiescent world with the same
descriptors and threads. -/
theorem runCycles_cons_inv (fds : List Int) (threads : List ThreadId) (w wf : World)
    (c : Cycle) (cs : List Cycle) (hq : Quiescent fds threads w)
    (hrun : runCycles w (c :: cs) = some wf) :
    ∃ w2, Quiescent fds threads w2 ∧ runCycles w2 cs = some wf := by
  obtain ⟨hr, hl, ht, hsem, hfds, hthr⟩ := hq
  rw [runCycles_cons] at hrun
  split at hrun
  · rename_i w1 hstart
    obtain ⟨hr1, -, hfd1, -, tid, l, ht1, hl1, hlive1⟩ :=
      StartThread_zero_of_stopped w c.thread_name c.env w1 hr hstart
    split_ifs at hrun with hself
    rw [ht1] at hself
    have hne : c.stopper ≠ tid := fun e => hself (by rw [e])
    rw [StopThread_of_running w1 c.stopper tid l hr1 ht1 hl1] at hrun
    simp only [if_neg hne] at hrun
    refine ⟨_, ?_, hrun⟩
    refine ⟨rfl, rfl, rfl, rfl, ?_, ?_⟩
    · simp [hfd1, hfds]
    · simp [hlive1, hthr]
  · cases hrun

/-- A cycle whose system calls succeed is counted. -/
theorem runCycles_cons_ok (fds : List Int) (threads : List ThreadId) (w : World)
    (c : Cycle) (cs : List Cycle) (hq : Quiescent fds threads w) (hc : c.ok) :
    ∃ w2, Quiescent fds threads w2 ∧ runCycles w (c :: cs) = runCycles w2 cs := by
  obtain ⟨hr, hl, ht, hsem, hfds, hthr⟩ := hq
  obtain ⟨hsi, hef, hpr, hsome, hnes⟩ := hc
  obtain ⟨tid, hsp⟩ := Option.ne_none_iff_exists'.mp hsome
  have hne : tid ≠ c.stopper := by
    intro e
    rw [hsp, e] at hnes
    exact hnes rfl
  obtain ⟨w1, hstart, ht1⟩ := StartThread_ok w c.thread_name c.env tid hr ht hsi hef hsp hpr
  obtain ⟨hr1, -, hfd1, -, tid1, l, ht1b, hl1, hlive1⟩ :=
    StartThread_zero_of_stopped w c.thread_name c.env w1 hr hstart
  have htid : tid1 = tid := by
    rw [ht1] at ht1b
    exact (Option.some.inj ht1b).symm
  subst htid
  have hne2 : c.stopper ≠ tid1 := fun e => hne e.symm
  have hself : ¬ some c.stopper = w1.mgr.thread_ := by
    rw [ht1]
    intro e
    exact hne2 (Option.some.inj e)
  have hstep := StopThread_of_running w1 c.stopper tid1 l hr1 ht1 hl1
  refine ⟨?w2, ?hq, ?heq⟩
  case heq =>
    rw [runCycles_cons, hstart]
    simp only [if_neg hself]
    rw [hstep]
    dsimp only
    exact rfl
  case hq =>
    refine ⟨rfl, rfl, ?_, rfl, ?_, ?_⟩
    · simp [hne2]
    · simp [hfd1, hfds]
    · simp [hne2, hlive1, hthr]

/-- A run of counted cycles from a quiescent world ends in a quiescent world. -/
theorem runCycles_quiescent (fds : List Int) (threads : List ThreadId) (cycles : List Cycle) :
    ∀ w wf : World, Quiescent fds threads w → runCycles w cycles = some wf →
      Quiescent fds threads wf := by
  induction cycles with
  | nil =>
    intro w wf hq h
    simp only [runCycles, Option.some.injEq] at h
    subst h
    exact hq
  | cons c cs ih =>
    intro w wf hq h
    obtain ⟨w2, hq2, h2⟩ := runCycles_cons_inv fds threads w wf c cs hq h
    exact ih w2 wf hq2 h2

/-- A run of cycles whose system calls all succeed is counted to its end. -/
theorem runCycles_isSome (fds : List Int) (threads : List ThreadId) (cycles : List Cycle) :
    ∀ w : World, Quiescent fds threads w → (∀ c ∈ cycles, c.ok) →
      ∃ wf, runCycles w cycles = some wf := by
  induction cycles with
  | nil =>
    intro w _ _
    exact ⟨w, rfl⟩
  | cons c cs ih =>
    intro w hq hok
    obtain ⟨w2, hq2, h2⟩ :=
      runCycles_cons_ok fds threads w c cs hq (hok c (List.mem_cons_self c cs))
    rw [h2]
    exact ih w2 hq2 (fun c2 hc2 => hok c2 (List.mem_cons_of_mem c hc2))

/-! ## The claims -/

/-- Claim C1 (the code departs from it): on a freshly constructed manager, a
StartThread during which no thread can be started does not return a failure result: it
does not return at all, because the thread constructor raises before the joinable check
of line 77 is reached.  At that point the running flag is already set and the semaphore and
the wake descriptor are left behind.  In no world and under no answers of the system does
StartThread return anything but 0. -/
theorem C1_failed_start_does_not_return :
    StartThread (World.fresh [] []) exampleName envNoThread
        = Outcome.faulted Fault.systemError atFailedStart ∧
      atFailedStart.mgr.running_ = true ∧
      atFailedStart.sem = some 0 ∧ atFailedStart.open_fds = [5] ∧
      (∀ (w w1 : World) (name : List Char) (env : StartEnv) (r : Int),
        StartThread w name env = Outcome.returned r w1 → r = 0) := by
  refine ⟨rfl, rfl, rfl, rfl, ?_⟩
  intro w w1 name env r hs
  exact StartThread_returns_zero w name env r w1 hs

/-- Claim C2 (the code departs from it): after a successful StartThread, a StopThread
called by the worker thread 7 returns 0 without a join and leaves the thread object
joinable; the next StartThread does create a thread but then assigns it over the joinable
object, which ends the process instead of returning 0. -/
theorem C2_self_stop_then_start :
    StartThread (World.fresh [] []) exampleName envOk = Outcome.returned 0 afterStart ∧
      StopThread afterStart 7 = Outcome.returned 0 afterSelfStop ∧
      Action.thread_join 7 ∉ afterSelfStop.trace ∧
      afterSelfStop.mgr.thread_ = some 7 ∧
      ∃ w, StartThread afterSelfStop exampleName envOk2 = Outcome.faulted Fault.terminate w ∧
        threadCreations w.trace = threadCreations afterSelfStop.trace + 1 := by
  refine ⟨rfl, rfl, by decide, rfl, _, rfl, rfl⟩

/-- Claim C3: when the running flag is already true, StartThread returns 0 and leaves
the whole world as it was: no field of the manager changes and no call (sem_init,
eventfd, thread constructor, sem_wait) is added to the trace.  Consequently, when a
StartThread on a stopped manager returns (with whatever result) and StartThread is called
again, the second call returns 0 without any effect and the two calls together have
called the thread constructor exactly once. -/
theorem C3_start_idempotent :
    (∀ (w : World) (name : List Char) (env : StartEnv),
        w.mgr.running_ = true → StartThread w name env = Outcome.returned 0 w) ∧
    (∀ (w w1 : World) (name1 name2 : List Char) (env1 env2 : StartEnv) (r : Int),
        w.mgr.running_ = false →
        StartThread w name1 env1 = Outcome.returned r w1 →
        StartThread w1 name2 env2 = Outcome.returned 0 w1 ∧
          threadCreations w1.trace = threadCreations w.trace + 1) := by
  constructor
  · intro w name env h
    simp [StartThread, h]
  · intro w w1 name1 name2 env1 env2 r h hs
    obtain ⟨hrun, hcount⟩ := StartThread_returned_of_stopped w name1 env1 r w1 h hs
    exact ⟨by simp [StartThread, hrun], hcount⟩

/-- Claim C3 at concrete inputs: a second start of the running manager `afterStart`
changes nothing, and two starts in a row from a fresh manager make one thread. -/
theorem C3_start_idempotent_witness :
    StartThread afterStart exampleName envOk2 = Outcome.returned 0 afterStart ∧
      (StartThread afterStart exampleName envOk2 = Outcome.returned 0 afterStart ∧
        threadCreations afterStart.trace = threadCreations (World.fresh [] []).trace + 1) :=
  ⟨C3_start_idempotent.1 afterStart exampleName envOk2 rfl,
   C3_start_idempotent.2 (World.fresh [] []) afterStart exampleName exampleName envOk envOk2 0
     rfl rfl⟩

/-- Claim C4: on a manager whose running flag is false, StopThread returns 0 and changes
nothing: the manager's fields, the semaphore, the open descriptors, the live threads
are as before and no call (no wake-signal write, join, removeFd, close or sem_destroy)
is added to the trace. -/
theorem C4_stop_idempotent (w : World) (caller : ThreadId)
    (h : w.mgr.running_ = false) : StopThread w caller = Outcome.returned 0 w := by
  simp [StopThread, h]

/-- Claim C4 at a freshly constructed manager, stopped from thread 3. -/
theorem C4_stop_idempotent_witness :
    (World.fresh [0, 1, 2] []).mgr.running_ = false ∧
      StopThread (World.fresh [0, 1, 2] []) 3 = Outcome.returned 0 (World.fresh [0, 1, 2] []) :=
  ⟨rfl, C4_stop_idempotent (World.fresh [0, 1, 2] []) 3 rfl⟩

/-- Claim C5: in every world reached from a freshly constructed manager, when the
running flag is true the thread object owns a worker `tid`, and StopThread returns 0
after exactly these calls, in this order: the write of kStopEvent to the wake descriptor,
the join of the worker if and only if the caller is not the worker, removeFd, close, the
clearing of the looper reference, sem_destroy.  Afterwards the flag is false, the looper
reference is null, the semaphore is destroyed and the descriptor is closed. -/
theorem C5_stop_teardown (w : World) (caller : ThreadId) (hreach : Reachable w)
    (hrun : w.mgr.running_ = true) :
    ∃ tid, w.mgr.thread_ = some tid ∧
    StopThread w caller = Outcome.returned 0
      { mgr := { running_ := false, looper_ := none, event_fd_ := w.mgr.event_fd_,
                 thread_ := if caller = tid then some tid else none },
        sem := none,
        open_fds := w.open_fds.erase w.mgr.event_fd_,
        live_threads := if caller = tid then w.live_threads else w.live_threads.erase tid,
        trace := w.trace ++ [Action.eventfd_write w.mgr.event_fd_ kStopEvent] ++
          (if caller = tid then [] else [Action.thread_join tid]) ++
          [Action.looper_removeFd w.mgr.event_fd_, Action.close w.mgr.event_fd_,
           Action.looper_clear, Action.sem_destroy] } := by
  obtain ⟨hthr, hloop, -⟩ := Reachable_started w hreach hrun
  obtain ⟨tid, htid⟩ := Option.ne_none_iff_exists'.mp hthr
  obtain ⟨l, hl⟩ := Option.ne_none_iff_exists'.mp hloop
  exact ⟨tid, htid, StopThread_of_running w caller tid l hrun htid hl⟩

/-- Claim C5 at the running manager `afterStart`, which a StartThread on a fresh manager
reaches, stopped from thread 3: the worker 7 is joined between the write and removeFd. -/
theorem C5_stop_teardown_witness :
    Reachable afterStart ∧ afterStart.mgr.running_ = true ∧
    ∃ tid, afterStart.mgr.thread_ = some tid ∧
      StopThread afterStart 3 = Outcome.returned 0
        { mgr := { running_ := false, looper_ := none, event_fd_ := 5,
                   thread_ := if 3 = tid then some tid else none },
          sem := none,
          open_fds := [],
          live_threads := if 3 = tid then [7] else [7].erase tid,
          trace := startCalls ++ [Action.eventfd_write 5 kStopEvent] ++
            (if 3 = tid then [] else [Action.thread_join tid]) ++
            [Action.looper_removeFd 5, Action.close 5, Action.looper_clear,
             Action.sem_destroy] } :=
  ⟨Reachable.start exampleName envOk 0 (Reachable.fresh [] []) rfl, rfl,
   C5_stop_teardown afterStart 3
     (Reachable.start exampleName envOk 0 (Reachable.fresh [] []) rfl) rfl⟩

/-- Claim C6: start from a freshly constructed manager in a process that has the
descriptors `fds` and the threads `threads`, and run any number of cycles, each a
StartThread that returns 0 followed by a StopThread from a thread other than the worker.
Whenever the system calls of the cycles succeed the run goes through, and after every
such run the numbers of live threads, of open descriptors and of initialised semaphores
are what they were before the first start, the running flag is false and the looper
reference is null. -/
theorem C6_cycles_leak_nothing (fds : List Int) (threads : List ThreadId)
    (cycles : List Cycle) :
    ((∀ c ∈ cycles, c.ok) → ∃ w, runCycles (World.fresh fds threads) cycles = some w) ∧
    (∀ w, runCycles (World.fresh fds threads) cycles = some w →
      w.live_threads.length = (World.fresh fds threads).live_threads.length ∧
      w.open_fds.length = (World.fresh fds threads).open_fds.length ∧
      w.semaphores = (World.fresh fds threads).semaphores ∧
      w.mgr.running_ = false ∧ w.mgr.looper_ = none) := by
  have hq0 : Quiescent fds threads (World.fresh fds threads) := ⟨rfl, rfl, rfl, rfl, rfl, rfl⟩
  constructor
  · exact runCycles_isSome fds threads cycles _ hq0
  · intro w hw
    obtain ⟨hr, hl, -, hsem, hfds, hthr⟩ :=
      runCycles_quiescent fds threads cycles _ w hq0 hw
    refine ⟨by rw [hthr]; rfl, by rw [hfds]; rfl, ?_, hr, hl⟩
    simp [World.semaphores, hsem, World.fresh]

/-- Claim C6 on two cycles in a process that already has descriptors 0, 1, 2 and thread
1: the run goes through and ends with three descriptors, one thread, no semaphore. -/
theorem C6_cycles_leak_nothing_witness :
    (∀ c ∈ twoCycles, c.ok) ∧
    (∃ w, runCycles (World.fresh [0, 1, 2] [1]) twoCycles = some w) ∧
    ∃ w, runCycles (World.fresh [0, 1, 2] [1]) twoCycles = some w ∧
      w.live_threads.length = 1 ∧ w.open_fds.length = 3 ∧ w.semaphores = 0 ∧
      w.mgr.running_ = false ∧ w.mgr.looper_ = none :=
  ⟨by decide, (C6_cycles_leak_nothing [0, 1, 2] [1] twoCycles).1 (by decide),
    _, rfl, (C6_cycles_leak_nothing [0, 1, 2] [1] twoCycles).2 _ rfl⟩

/-- Claim C7 (the code departs from it): for the empty thread name the buffer starts
with the digit character 0 that the initialiser put there, so the name handed to the
system is the one-character string "0" and not the first min(0, 16) characters of the
supplied name, which is the empty string. -/
theorem C7_empty_name_is_digit_zero :
    ThreadRoutine_name [] = ['0'] ∧
      ThreadRoutine_name [] ≠ ([] : List Char).take (min ([] : List Char).length 16) ∧
      ThreadRoutine_name_buffer [] = '0' :: List.replicate 16 NUL := by
  refine ⟨by decide, by decide, by decide⟩

/-- Claim C8: in every world reached from a freshly constructed manager, whenever
StartThread returns 0 the looper reference is non-null and the wake descriptor is
registered with that looper.  When the call found the flag cleared, its calls were, in
order, sem_init, eventfd, the thread constructor, then on the worker the naming of the
thread, Looper::prepare, addFd of the wake descriptor and sem_post, and last the sem_wait
after which StartThread returns. -/
theorem C8_start_success_has_looper (w w1 : World) (name : List Char) (env : StartEnv)
    (hreach : Reachable w) (hs : StartThread w name env = Outcome.returned 0 w1) :
    (∃ l, w1.mgr.looper_ = some l) ∧ w1.wakeRegistered = true ∧
      (w.mgr.running_ = false →
        w1.trace = w.trace ++ [Action.sem_init env.sem_init_res,
          Action.eventfd env.eventfd_res, Action.thread_create env.spawned,
          Action.prctl_set_name (ThreadRoutine_name name), Action.looper_prepare true,
          Action.looper_addFd env.eventfd_res kStopEvent, Action.sem_post,
          Action.sem_wait]) := by
  have hst : Started w1 :=
    Reachable_started w1 (Reachable.start name env 0 hreach hs)
      (by
        by_cases h0 : w.mgr.running_ = true
        · have hsame : w1 = w := by
            simp [StartThread, h0] at hs
            exact hs.symm
          rw [hsame]
          exact h0
        · exact (StartThread_returned_of_stopped w name env 0 w1 (by simpa using h0) hs).1)
  obtain ⟨-, hloop, hreg⟩ := hst
  exact ⟨Option.ne_none_iff_exists'.mp hloop, hreg,
    fun h0 => StartThread_zero_trace w name env w1 h0 hs⟩

/-- Claim C8 at the first start of a fresh manager: it returns 0 in `afterStart`, where
the looper holds the registration of descriptor 5. -/
theorem C8_start_success_has_looper_witness :
    StartThread (World.fresh [] []) exampleName envOk = Outcome.returned 0 afterStart ∧
      (∃ l, afterStart.mgr.looper_ = some l) ∧ afterStart.wakeRegistered = true :=
  ⟨rfl,
   (C8_start_success_has_looper (World.fresh [] []) afterStart exampleName envOk
     (Reachable.fresh [] []) rfl).1,
   (C8_start_success_has_looper (World.fresh [] []) afterStart exampleName envOk
     (Reachable.fresh [] []) rfl).2.1⟩

/-- Claim C9: with a null handler EnqueueMessage aborts in every world: it does not
return and the trace is unchanged, so no sendMessage was made.  With a non-null handler
on a running manager (flag set, looper present) it returns after adding exactly one call
to the trace, the sendMessage of that handler and that message, and changes nothing
else. -/
theorem C9_enqueue (w : World) (message : Int) :
    EnqueueMessage w none message = Outcome.faulted Fault.logFatal w ∧
    (∀ (h : Nat) (l : Looper), w.mgr.running_ = true → w.mgr.looper_ = some l →
      EnqueueMessage w (some h) message = Outcome.returned ()
        { w with trace := w.trace ++ [Action.looper_sendMessage h message] }) := by
  constructor
  · rfl
  · intro h l _ hl
    simp [EnqueueMessage, hl, World.log]

/-- Claim C9 at the running manager `afterStart`, handler 11 and message 42. -/
theorem C9_enqueue_witness :
    EnqueueMessage afterStart none 42 = Outcome.faulted Fault.logFatal afterStart ∧
      EnqueueMessage afterStart (some 11) 42 = Outcome.returned ()
        { afterStart with trace := afterStart.trace ++ [Action.looper_sendMessage 11 42] } :=
  ⟨(C9_enqueue afterStart 42).1, (C9_enqueue afterStart 42).2 11 { fds := [(5, 1)] } rfl rfl⟩

/-- Claim C10, amended: the worker loop exits after poll number `n` (having issued `n + 1`
polls) exactly when each earlier poll reported a wake or found the running flag true, and
poll `n` reported something other than a wake and found the flag false.  So a wake never
ends the loop, and a poll error ends it only if the flag is false; any fuel beyond `n`
polls is enough to see the exit. -/
theorem C10_loop_exit (polls : Nat → Int × Bool) (fuel n : Nat) :
    RunLooper_loop polls fuel 0 = some (n + 1) ↔
      n < fuel ∧
        (∀ j, j < n → (polls j).1 = POLL_WAKE ∨ (polls j).2 = true) ∧
        (polls n).1 ≠ POLL_WAKE ∧ (polls n).2 = false := by
  rw [RunLooper_loop_eq_some]
  simp [RunLooper_continues]

/-- Claim C10, amended, on a run of four polls: a wake, an error and a callback while the
flag is set, then an error with the flag cleared; the loop exits after the fourth. -/
theorem C10_loop_exit_witness :
    RunLooper_loop (pollsOf [(POLL_WAKE, true), (POLL_ERROR, true), (POLL_CALLBACK, true),
        (POLL_ERROR, false)]) 10 0 = some 4 :=
  (C10_loop_exit (pollsOf [(POLL_WAKE, true), (POLL_ERROR, true), (POLL_CALLBACK, true),
    (POLL_ERROR, false)]) 10 3).mpr (by decide)

/-- Claim C10 as stated fails.  A poll error while the flag is set does not end the loop
(after one poll it is still going; it ends after the second poll, a callback with the
flag cleared, which is neither a wake nor an error).  A wake that finds the flag cleared
does not end the loop either. -/
theorem C10_counterexample :
    RunLooper_loop (pollsOf [(POLL_ERROR, true)]) 1 0 = none ∧
      RunLooper_loop (pollsOf [(POLL_ERROR, true)]) 2 0 = some 2 ∧
      RunLooper_loop (pollsOf [(POLL_WAKE, false)]) 1 0 = none ∧
      RunLooper_loop (pollsOf [(POLL_WAKE, false)]) 2 0 = some 2 := by
  refine ⟨rfl, rfl, rfl, rfl⟩

end BtHal
